import Mathlib

/-!
# Verification of the DrugCentral line transducer

A shallow embedding of
`kg_covid_19/transform_utils/drug_central/drug_central.py`.

`DrugCentralTransform.run` streams a gzip-compressed tab-separated file of
drug-target interaction records and writes two tab-separated output files
(nodes and edges).  We model the stream as a list of input lines (the first
line is the header), each output file as the list of strings written to it
(header line first, each written line carrying its trailing newline), and a
raised Python exception as an explicit error value that aborts processing,
keeping whatever was written before the raise.

Helper functions imported from `kg_covid_19.utils.transform_utils` and the
`Transform` base class are not part of the source tree at hand; those are
modelled from the specification and are marked `Modelled from the spec:` in
their doc comments.  Everything else is translated directly from
`drug_central.py`.
-/

/-- The exceptions that can abort a run.
`keyError k` models a Python `KeyError` raised by `items_dict[k]`;
`itemInDictNotFound` models the `ItemInDictNotFound` exception raised by
`get_item_by_priority`; `shapeMismatch` models the data-shape error signalled
during row-record construction; `writeMismatch` models the fatal
header/data length mismatch in `write_node_edge_item`. -/
inductive Err where
  | keyError (k : String)
  | itemInDictNotFound
  | shapeMismatch
  | writeMismatch
  deriving DecidableEq, Repr

/-- A row record: a mapping from header name to string value, modelled as an
association list (keys are distinct in every use below). -/
abbrev Row := List (String × String)

/-- Modelled from the spec: the node output header held by the `Transform`
base class (absent from the source tree); §6 fixes it to the literal column
names `id`, `name`, `category`. -/
def node_header : List String := ["id", "name", "category"]

/-- `self.edge_header` as assigned in `DrugCentralTransform.run`. -/
def edge_header : List String :=
  ["subject", "edge_label", "object", "relation", "provided_by", "comment"]

/-- `drug_node_type = "biolink:Drug"` from `run`. -/
def drug_node_type : String := "biolink:Drug"

/-- `gene_node_type = "biolink:Gene"` from `run`. -/
def gene_node_type : String := "biolink:Gene"

/-- `gene_curie_prefix = "UniProtKB:"` from `run`. -/
def gene_curie_pfx : String := "UniProtKB:"

/-- `drug_curie_prefix = "DrugCentral:"` from `run`. -/
def drug_curie_pfx : String := "DrugCentral:"

/-- `drug_gene_edge_label = "biolink:interacts_with"` from `run`. -/
def drug_gene_edge_label : String := "biolink:interacts_with"

/-- `drug_gene_edge_relation = "RO:0002436"` from `run`. -/
def drug_gene_edge_relation : String := "RO:0002436"

/-- Python's `sep.join(values)`. -/
def joinSep (sep : String) : List String → String
  | [] => ""
  | [a] => a
  | a :: as => a ++ (sep ++ joinSep sep (as))

/-- Python's `str.strip()`: remove leading and trailing whitespace. -/
def pyStrip (s : String) : String :=
  String.mk
    (((s.data.dropWhile Char.isWhitespace).reverse.dropWhile Char.isWhitespace).reverse)

/-- Auxiliary for `pySplit`: walk the characters, cutting at the separator;
`acc` holds the characters of the current field in reverse. -/
def pySplitAux (sep : Char) : List Char → List Char → List String
  | [], acc => [String.mk acc.reverse]
  | c :: cs, acc =>
    if c = sep then String.mk acc.reverse :: pySplitAux sep cs []
    else pySplitAux sep cs (c :: acc)

/-- Python's `str.split(sep)` for a one-character separator (the transducer
only ever splits on `"\t"` and `"|"`): `"".split(sep) = [""]`, and `n`
separator occurrences yield `n + 1` fields. -/
def pySplit (sep : Char) (s : String) : List String :=
  pySplitAux sep s.data []

/-- Python's `str.replace('"', '')`: remove every double-quote character. -/
def stripQuotes (s : String) : String :=
  String.mk (s.data.filter (fun c => c ≠ '"'))

/-- Modelled from the spec: `data_to_dict` from `kg_covid_19.utils.transform_utils`
(absent from the source tree) zips header names against the split fields to
build the row record; §4.1 step 2 requires it to signal a data-shape error
when the field count does not match the header count. -/
def data_to_dict (these_keys these_values : List String) : Except Err Row :=
  if these_keys.length = these_values.length then
    .ok (these_keys.zip these_values)
  else
    .error .shapeMismatch

/-- Modelled from the spec: `parse_header` from
`kg_covid_19.utils.transform_utils` (absent from the source tree); §3 says the
header is the ordered sequence of column names parsed once from the first
line, treated like a data line: whitespace-stripped, tab-split,
quote-stripped. -/
def parse_header (header_string : String) : List String :=
  (pySplit '\t' (pyStrip header_string)).map stripQuotes

/-- `parse_drug_central_line` from `drug_central.py`: strip the line, split on
tabs, strip double quotes from every field, and build the row record. -/
def parse_drug_central_line (this_line : String) (header_items : List String) :
    Except Err Row :=
  let data := (pySplit '\t' (pyStrip this_line)).map stripQuotes
  data_to_dict header_items data

/-- Modelled from the spec: `get_item_by_priority` from
`kg_covid_19.utils.transform_utils` (absent from the source tree); §9 and the
§3 invariant: try the candidate field names in order, the first one that is
present in the row record with a non-empty value wins; if none qualifies,
raise `ItemInDictNotFound`. -/
def get_item_by_priority (items_dict : Row) (keys_by_priority : List String) :
    Except Err String :=
  match keys_by_priority with
  | [] => .error .itemInDictNotFound
  | k :: rest =>
    match items_dict.lookup k with
    | some v => if v ≠ "" then .ok v else get_item_by_priority items_dict rest
    | none => get_item_by_priority items_dict rest

/-- Python subscript `items_dict[k]`: the value when the key is present,
otherwise a raised `KeyError`. -/
def dictGet (items_dict : Row) (k : String) : Except Err String :=
  match items_dict.lookup k with
  | some v => .ok v
  | none => .error (.keyError k)

/-- Modelled from the spec: `write_node_edge_item` from
`kg_covid_19.utils.transform_utils` (absent from the source tree); §4.1 output
discipline: a single atomic append of one tab-joined line, fatal when the
value count does not equal the header length.  Returns the written line. -/
def write_node_edge_item (header data : List String) : Except Err String :=
  if header.length = data.length then
    .ok (joinSep "\t" data ++ "\n")
  else
    .error .writeMismatch

/-- The lines appended to the node file and to the edge file by (part of) a
run, together with the exception, if any, that aborted it.  Lines written
before the raise are kept. -/
structure RowOut where
  nodes : List String
  edges : List String
  err : Option Err
  deriving DecidableEq, Repr

/-- The `for gene_id in gene_ids:` loop body of `run`: prefix the accession,
write the gene node line, then write the drug-gene edge line.  Python
evaluates the `data` list argument before calling `write_node_edge_item`, so
a `KeyError` on `items_dict['GENE']` precedes the gene-node write and a
`KeyError` on `items_dict['ACT_COMMENT']` follows it. -/
def emitGenes (items_dict : Row) (drug_id source_name : String) :
    List String → RowOut
  | [] => ⟨[], [], none⟩
  | g :: gs =>
    let gene_id := gene_curie_pfx ++ g
    match dictGet items_dict "GENE" with
    | .error e => ⟨[], [], some e⟩
    | .ok gene_name =>
      match write_node_edge_item node_header [gene_id, gene_name, gene_node_type] with
      | .error e => ⟨[], [], some e⟩
      | .ok gene_line =>
        match dictGet items_dict "ACT_COMMENT" with
        | .error e => ⟨[gene_line], [], some e⟩
        | .ok comment =>
          match write_node_edge_item edge_header
              [drug_id, drug_gene_edge_label, gene_id, drug_gene_edge_relation,
               source_name, comment] with
          | .error e => ⟨[gene_line], [], some e⟩
          | .ok edge_line =>
            let r := emitGenes items_dict drug_id source_name gs
            ⟨gene_line :: r.nodes, edge_line :: r.edges, r.err⟩

/-- The per-row body of the `for line in interactions:` loop of `run`, after
the line has been parsed into a row record: the organism filter, the
accession lookup (whose `ItemInDictNotFound` is caught and skips the row),
the drug-id lookup (whose `ItemInDictNotFound` propagates), the drug node
write, and the gene loop. -/
def processRow (species source_name : String) (items_dict : Row) : RowOut :=
  match items_dict.lookup "ORGANISM" with
  | none => ⟨[], [], none⟩
  | some org =>
    if org ≠ species then ⟨[], [], none⟩
    else
      match get_item_by_priority items_dict ["ACCESSION"] with
      | .error _ => ⟨[], [], none⟩
      | .ok gene_id_string =>
        let gene_ids := pySplit '|' gene_id_string
        match get_item_by_priority items_dict ["STRUCT_ID"] with
        | .error e => ⟨[], [], some e⟩
        | .ok struct_id =>
          let drug_id := drug_curie_pfx ++ struct_id
          match dictGet items_dict "DRUG_NAME" with
          | .error e => ⟨[], [], some e⟩
          | .ok drug_name =>
            match write_node_edge_item node_header [drug_id, drug_name, drug_node_type] with
            | .error e => ⟨[], [], some e⟩
            | .ok drug_line =>
              let r := emitGenes items_dict drug_id source_name gene_ids
              ⟨drug_line :: r.nodes, r.edges, r.err⟩

/-- The `for line in interactions:` loop of `run` over the data lines: parse
each line against the header, process the row, and stop at the first raised
exception, keeping the lines written so far. -/
def runLoop (species source_name : String) (header_items : List String) :
    List String → RowOut
  | [] => ⟨[], [], none⟩
  | line :: rest =>
    match parse_drug_central_line line header_items with
    | .error e => ⟨[], [], some e⟩
    | .ok items_dict =>
      let r := processRow species source_name items_dict
      match r.err with
      | some e => ⟨r.nodes, r.edges, some e⟩
      | none =>
        let r2 := runLoop species source_name header_items rest
        ⟨r.nodes ++ r2.nodes, r.edges ++ r2.edges, r2.err⟩

/-- The sequences of strings written to the node file and to the edge file by
a run, and the exception, if any, that aborted it. -/
structure RunResult where
  nodeWrites : List String
  edgeWrites : List String
  err : Option Err
  deriving DecidableEq, Repr

/-- `DrugCentralTransform.run`, with the input file given as its list of
lines (first line the header) and `self.source_name = "drug_central"` fixed
by `DrugCentralTransform.__init__`: write the two output headers, parse the
input header, then run the row loop. -/
def run (species : String) (inputLines : List String) : RunResult :=
  let header_items := parse_header (inputLines.headD "")
  let r := runLoop species "drug_central" header_items inputLines.tail
  ⟨(joinSep "\t" node_header ++ "\n") :: r.nodes,
   (joinSep "\t" edge_header ++ "\n") :: r.edges,
   r.err⟩

/-- The byte content of the node output file: the concatenation of the
written strings. -/
def nodeFileContent (r : RunResult) : String := String.join r.nodeWrites

/-- The byte content of the edge output file: the concatenation of the
written strings. -/
def edgeFileContent (r : RunResult) : String := String.join r.edgeWrites

/-- C3: the example row with STRUCT_ID=99, DRUG_NAME=Foo, GENE=BAR,
ACCESSION=P00001, ORGANISM=Homo sapiens, ACT_COMMENT=inhibits yields exactly
the drug node line `DrugCentral:99\tFoo\tbiolink:Drug`, the gene node line
`UniProtKB:P00001\tBAR\tbiolink:Gene`, and the edge line
`DrugCentral:99\tbiolink:interacts_with\tUniProtKB:P00001\tRO:0002436\tdrug_central\tinhibits`,
each after the fixed header line of its file, with no error. -/
theorem example_row_end_to_end :
    run "Homo sapiens"
      ["STRUCT_ID\tDRUG_NAME\tGENE\tACCESSION\tORGANISM\tACT_COMMENT",
       "99\tFoo\tBAR\tP00001\tHomo sapiens\tinhibits"]
    = ⟨["id\tname\tcategory\n",
        "DrugCentral:99\tFoo\tbiolink:Drug\n",
        "UniProtKB:P00001\tBAR\tbiolink:Gene\n"],
       ["subject\tedge_label\tobject\trelation\tprovided_by\tcomment\n",
        "DrugCentral:99\tbiolink:interacts_with\tUniProtKB:P00001\tRO:0002436\tdrug_central\tinhibits\n"],
       none⟩ := by decide

/-- C1: a row whose ORGANISM field is absent or differs (case-sensitively)
from the configured species emits no node line and no edge line, and the loop
continues with the next row: running the loop on that row followed by any
remaining rows equals running it on the remaining rows alone. -/
theorem organism_mismatch_row_skipped (species source_name line : String)
    (header_items rest : List String) (items_dict : Row)
    (hp : parse_drug_central_line line header_items = Except.ok items_dict)
    (horg : items_dict.lookup "ORGANISM" ≠ some species) :
    processRow species source_name items_dict = ⟨[], [], none⟩ ∧
    runLoop species source_name header_items (line :: rest) =
      runLoop species source_name header_items rest := by
  have hrow : processRow species source_name items_dict = ⟨[], [], none⟩ := by
    unfold processRow
    cases h : items_dict.lookup "ORGANISM" with
    | none => rfl
    | some org =>
      have hne : org ≠ species := by
        intro e
        exact horg (by rw [h, e])
      simp [hne]
  refine ⟨hrow, ?_⟩
  conv_lhs => unfold runLoop
  rw [hp]
  simp only [hrow, List.nil_append]

/-- Witness for C1 at a concrete row whose organism is Mus musculus. -/
theorem organism_mismatch_row_skipped_witness :
    parse_drug_central_line "1\tMus musculus" ["STRUCT_ID", "ORGANISM"] =
      Except.ok [("STRUCT_ID", "1"), ("ORGANISM", "Mus musculus")] ∧
    ([("STRUCT_ID", "1"), ("ORGANISM", "Mus musculus")] : Row).lookup "ORGANISM" ≠
      some "Homo sapiens" ∧
    (processRow "Homo sapiens" "drug_central"
        [("STRUCT_ID", "1"), ("ORGANISM", "Mus musculus")] = ⟨[], [], none⟩ ∧
     runLoop "Homo sapiens" "drug_central" ["STRUCT_ID", "ORGANISM"]
         ["1\tMus musculus"] =
       runLoop "Homo sapiens" "drug_central" ["STRUCT_ID", "ORGANISM"] []) :=
  ⟨by rfl, by decide,
   organism_mismatch_row_skipped "Homo sapiens" "drug_central" "1\tMus musculus"
     ["STRUCT_ID", "ORGANISM"] [] [("STRUCT_ID", "1"), ("ORGANISM", "Mus musculus")]
     (by rfl) (by decide)⟩

/-- C4: a row whose organism matches but whose record has no ACCESSION field
is skipped without raising: it emits nothing, no error is recorded, and the
loop continues with the next row. -/
theorem missing_accession_row_skipped (species source_name line : String)
    (header_items rest : List String) (items_dict : Row)
    (hp : parse_drug_central_line line header_items = Except.ok items_dict)
    (horg : items_dict.lookup "ORGANISM" = some species)
    (hacc : items_dict.lookup "ACCESSION" = none) :
    processRow species source_name items_dict = ⟨[], [], none⟩ ∧
    runLoop species source_name header_items (line :: rest) =
      runLoop species source_name header_items rest := by
  have hrow : processRow species source_name items_dict = ⟨[], [], none⟩ := by
    unfold processRow
    rw [horg]
    simp [get_item_by_priority, hacc]
  refine ⟨hrow, ?_⟩
  conv_lhs => unfold runLoop
  rw [hp]
  simp only [hrow, List.nil_append]

/-- Witness for C4 at a concrete drug-only row. -/
theorem missing_accession_row_skipped_witness :
    parse_drug_central_line "7\tHomo sapiens" ["STRUCT_ID", "ORGANISM"] =
      Except.ok [("STRUCT_ID", "7"), ("ORGANISM", "Homo sapiens")] ∧
    ([("STRUCT_ID", "7"), ("ORGANISM", "Homo sapiens")] : Row).lookup "ORGANISM" =
      some "Homo sapiens" ∧
    ([("STRUCT_ID", "7"), ("ORGANISM", "Homo sapiens")] : Row).lookup "ACCESSION" = none ∧
    (processRow "Homo sapiens" "drug_central"
        [("STRUCT_ID", "7"), ("ORGANISM", "Homo sapiens")] = ⟨[], [], none⟩ ∧
     runLoop "Homo sapiens" "drug_central" ["STRUCT_ID", "ORGANISM"]
         ["7\tHomo sapiens"] =
       runLoop "Homo sapiens" "drug_central" ["STRUCT_ID", "ORGANISM"] []) :=
  ⟨by rfl, by decide, by decide,
   missing_accession_row_skipped "Homo sapiens" "drug_central" "7\tHomo sapiens"
     ["STRUCT_ID", "ORGANISM"] [] [("STRUCT_ID", "7"), ("ORGANISM", "Homo sapiens")]
     (by rfl) (by decide) (by decide)⟩

/-- C7 (invariant, only-if direction): a row contributes no output line at
all unless its organism field exactly matches the configured species and its
ACCESSION field is present with a non-empty value; any row violating either
condition is processed to no nodes, no edges, and no error. -/
theorem output_only_for_matching_organism_and_accession
    (species source_name : String) (items_dict : Row)
    (h : items_dict.lookup "ORGANISM" ≠ some species ∨
         items_dict.lookup "ACCESSION" = none ∨
         items_dict.lookup "ACCESSION" = some "") :
    processRow species source_name items_dict = ⟨[], [], none⟩ := by
  unfold processRow
  cases horg : items_dict.lookup "ORGANISM" with
  | none => rfl
  | some org =>
    by_cases he : org = species
    · subst he
      have hacc : items_dict.lookup "ACCESSION" = none ∨
          items_dict.lookup "ACCESSION" = some "" := by
        rcases h with h1 | h2 | h3
        · exact absurd horg h1
        · exact Or.inl h2
        · exact Or.inr h3
      rcases hacc with h2 | h2 <;> simp [get_item_by_priority, h2]
    · simp [he]

/-- Witness for C7 at a concrete row whose organism is Rattus norvegicus. -/
theorem output_only_for_matching_organism_and_accession_witness :
    (([("ORGANISM", "Rattus norvegicus")] : Row).lookup "ORGANISM" ≠
        some "Homo sapiens" ∨
     ([("ORGANISM", "Rattus norvegicus")] : Row).lookup "ACCESSION" = none ∨
     ([("ORGANISM", "Rattus norvegicus")] : Row).lookup "ACCESSION" = some "") ∧
    processRow "Homo sapiens" "drug_central" [("ORGANISM", "Rattus norvegicus")] =
      ⟨[], [], none⟩ :=
  ⟨Or.inl (by decide),
   output_only_for_matching_organism_and_accession "Homo sapiens" "drug_central"
     [("ORGANISM", "Rattus norvegicus")] (Or.inl (by decide))⟩

/-- Counterexample to C5 as stated: a row whose organism matches, whose
ACCESSION field is present (with the empty value), and whose record lacks
STRUCT_ID is skipped with no raised fault, because the accession lookup
treats an empty value as not found and that condition is caught and skipped
before STRUCT_ID is ever looked up; the claim predicts a propagated
lookup fault for this row. -/
theorem empty_accession_row_not_fatal :
    processRow "Homo sapiens" "drug_central"
      [("ORGANISM", "Homo sapiens"), ("ACCESSION", "")] = ⟨[], [], none⟩ := by
  decide

/-- C5 as amended: a row whose organism matches, whose ACCESSION field is
present and non-empty, and whose record lacks a STRUCT_ID field makes the
drug-id lookup raise `ItemInDictNotFound`, which is not caught: the row is
not skipped, and the loop aborts with that fault, discarding the remaining
rows. -/
theorem missing_struct_id_aborts (species source_name line : String)
    (header_items rest : List String) (items_dict : Row) (a : String)
    (hp : parse_drug_central_line line header_items = Except.ok items_dict)
    (horg : items_dict.lookup "ORGANISM" = some species)
    (hacc : items_dict.lookup "ACCESSION" = some a) (ha : a ≠ "")
    (hsid : items_dict.lookup "STRUCT_ID" = none) :
    processRow species source_name items_dict =
      ⟨[], [], some Err.itemInDictNotFound⟩ ∧
    runLoop species source_name header_items (line :: rest) =
      ⟨[], [], some Err.itemInDictNotFound⟩ := by
  have hrow : processRow species source_name items_dict =
      ⟨[], [], some Err.itemInDictNotFound⟩ := by
    unfold processRow
    rw [horg]
    simp [get_item_by_priority, hacc, ha, hsid]
  refine ⟨hrow, ?_⟩
  conv_lhs => unfold runLoop
  rw [hp]
  simp only [hrow]

/-- Witness for the amended C5 at a concrete row with ACCESSION P1 and no
STRUCT_ID column. -/
theorem missing_struct_id_aborts_witness :
    parse_drug_central_line "Homo sapiens\tP1" ["ORGANISM", "ACCESSION"] =
      Except.ok [("ORGANISM", "Homo sapiens"), ("ACCESSION", "P1")] ∧
    ([("ORGANISM", "Homo sapiens"), ("ACCESSION", "P1")] : Row).lookup "ORGANISM" =
      some "Homo sapiens" ∧
    ([("ORGANISM", "Homo sapiens"), ("ACCESSION", "P1")] : Row).lookup "ACCESSION" =
      some "P1" ∧
    ("P1" : String) ≠ "" ∧
    ([("ORGANISM", "Homo sapiens"), ("ACCESSION", "P1")] : Row).lookup "STRUCT_ID" =
      none ∧
    (processRow "Homo sapiens" "drug_central"
        [("ORGANISM", "Homo sapiens"), ("ACCESSION", "P1")] =
      ⟨[], [], some Err.itemInDictNotFound⟩ ∧
     runLoop "Homo sapiens" "drug_central" ["ORGANISM", "ACCESSION"]
         ["Homo sapiens\tP1", "ignored\tnever reached"] =
       ⟨[], [], some Err.itemInDictNotFound⟩) :=
  ⟨by rfl, by decide, by decide, by decide, by decide,
   missing_struct_id_aborts "Homo sapiens" "drug_central" "Homo sapiens\tP1"
     ["ORGANISM", "ACCESSION"] ["ignored\tnever reached"]
     [("ORGANISM", "Homo sapiens"), ("ACCESSION", "P1")] "P1"
     (by rfl) (by decide) (by decide) (by decide) (by decide)⟩

/-- C6: a data line whose tab-split, quote-stripped field count differs from
the header's field count makes record construction signal the data-shape
error, and the loop aborts with it instead of producing a misaligned row
record. -/
theorem field_count_mismatch_aborts (species source_name line : String)
    (header_items rest : List String)
    (hlen : ((pySplit '\t' (pyStrip line)).map stripQuotes).length ≠
      header_items.length) :
    parse_drug_central_line line header_items = Except.error Err.shapeMismatch ∧
    runLoop species source_name header_items (line :: rest) =
      ⟨[], [], some Err.shapeMismatch⟩ := by
  have hp : parse_drug_central_line line header_items =
      Except.error Err.shapeMismatch := by
    unfold parse_drug_central_line data_to_dict
    have hne : ¬ header_items.length = (pySplit '\t' (pyStrip line)).length := by
      intro h
      exact hlen (by simpa using h.symm)
    simp [hne]
  refine ⟨hp, ?_⟩
  conv_lhs => unfold runLoop
  rw [hp]

/-- Witness for C6 at a two-field line against a one-column header. -/
theorem field_count_mismatch_aborts_witness :
    ((pySplit '\t' (pyStrip "a\tb")).map stripQuotes).length ≠
      (["X"] : List String).length ∧
    (parse_drug_central_line "a\tb" ["X"] = Except.error Err.shapeMismatch ∧
     runLoop "Homo sapiens" "drug_central" ["X"] ["a\tb"] =
       ⟨[], [], some Err.shapeMismatch⟩) :=
  ⟨by decide,
   field_count_mismatch_aborts "Homo sapiens" "drug_central" "a\tb" ["X"] []
     (by decide)⟩

/-- C8: for every species and every input, each output file's write sequence
starts with its fixed header line, written exactly once and before any data
line, and that header line split on tabs is the literal header list —
`[id, name, category]` for nodes and
`[subject, edge_label, object, relation, provided_by, comment]` for edges. -/
theorem output_headers_first (species : String) (inputLines : List String) :
    (∃ ns es e, run species inputLines =
      ⟨"id\tname\tcategory\n" :: ns,
       "subject\tedge_label\tobject\trelation\tprovided_by\tcomment\n" :: es, e⟩) ∧
    pySplit '\t' "id\tname\tcategory" = node_header ∧
    pySplit '\t' "subject\tedge_label\tobject\trelation\tprovided_by\tcomment" =
      edge_header :=
  ⟨⟨_, _, _, rfl⟩, by decide, by decide⟩

/-- C9: the transform is deterministic: two runs over the same input file
content and the same species configuration produce byte-identical node and
edge output files (and the same error outcome). -/
theorem run_deterministic (species₁ species₂ : String)
    (lines₁ lines₂ : List String) (hs : species₁ = species₂)
    (hl : lines₁ = lines₂) :
    nodeFileContent (run species₁ lines₁) = nodeFileContent (run species₂ lines₂) ∧
    edgeFileContent (run species₁ lines₁) = edgeFileContent (run species₂ lines₂) ∧
    (run species₁ lines₁).err = (run species₂ lines₂).err := by
  subst hs
  subst hl
  exact ⟨rfl, rfl, rfl⟩

/-- Witness for C9 at a concrete input file. -/
theorem run_deterministic_witness :
    ("Homo sapiens" : String) = "Homo sapiens" ∧
    (["ORGANISM", "Homo sapiens"] : List String) = ["ORGANISM", "Homo sapiens"] ∧
    (nodeFileContent (run "Homo sapiens" ["ORGANISM", "Homo sapiens"]) =
       nodeFileContent (run "Homo sapiens" ["ORGANISM", "Homo sapiens"]) ∧
     edgeFileContent (run "Homo sapiens" ["ORGANISM", "Homo sapiens"]) =
       edgeFileContent (run "Homo sapiens" ["ORGANISM", "Homo sapiens"]) ∧
     (run "Homo sapiens" ["ORGANISM", "Homo sapiens"]).err =
       (run "Homo sapiens" ["ORGANISM", "Homo sapiens"]).err) :=
  ⟨rfl, rfl,
   run_deterministic "Homo sapiens" "Homo sapiens" ["ORGANISM", "Homo sapiens"]
     ["ORGANISM", "Homo sapiens"] rfl rfl⟩

/-- C2: a qualifying row (organism match, non-empty ACCESSION) has its
ACCESSION value split on `|`; with ACCESSION `P12345|Q67890` exactly two gene
node lines and exactly two edge lines are emitted after the single drug node
line, the two edges sharing the drug subject, the fixed edge label
`biolink:interacts_with` and the fixed relation `RO:0002436`, differing only
in the object gene ID, and each carrying the row's ACT_COMMENT value as its
comment field. -/
theorem accession_split_two_genes (species struct_id dn gn cm : String)
    (hsid : struct_id ≠ "") :
    processRow species "drug_central"
      [("STRUCT_ID", struct_id), ("DRUG_NAME", dn), ("GENE", gn),
       ("ACCESSION", "P12345|Q67890"), ("ORGANISM", species), ("ACT_COMMENT", cm)] =
    ⟨["DrugCentral:" ++ struct_id ++ "\t" ++ dn ++ "\tbiolink:Drug\n",
      "UniProtKB:P12345\t" ++ gn ++ "\tbiolink:Gene\n",
      "UniProtKB:Q67890\t" ++ gn ++ "\tbiolink:Gene\n"],
     ["DrugCentral:" ++ struct_id ++ "\tbiolink:interacts_with\tUniProtKB:P12345\tRO:0002436\tdrug_central\t" ++ cm ++ "\n",
      "DrugCentral:" ++ struct_id ++ "\tbiolink:interacts_with\tUniProtKB:Q67890\tRO:0002436\tdrug_central\t" ++ cm ++ "\n"],
     none⟩ := by
  simp [processRow, get_item_by_priority, dictGet, emitGenes, write_node_edge_item,
        List.lookup, node_header, edge_header, joinSep, pySplit, pySplitAux,
        drug_curie_pfx, gene_curie_pfx, drug_node_type, gene_node_type,
        drug_gene_edge_label, drug_gene_edge_relation, hsid, String.append_assoc]
  exact ⟨⟨rfl, rfl⟩, rfl, rfl⟩

/-- Witness for C2 at a concrete qualifying row. -/
theorem accession_split_two_genes_witness :
    ("99" : String) ≠ "" ∧
    processRow "Homo sapiens" "drug_central"
      [("STRUCT_ID", "99"), ("DRUG_NAME", "Foo"), ("GENE", "BAR"),
       ("ACCESSION", "P12345|Q67890"), ("ORGANISM", "Homo sapiens"),
       ("ACT_COMMENT", "inhibits")] =
    ⟨["DrugCentral:99\tFoo\tbiolink:Drug\n",
      "UniProtKB:P12345\tBAR\tbiolink:Gene\n",
      "UniProtKB:Q67890\tBAR\tbiolink:Gene\n"],
     ["DrugCentral:99\tbiolink:interacts_with\tUniProtKB:P12345\tRO:0002436\tdrug_central\tinhibits\n",
      "DrugCentral:99\tbiolink:interacts_with\tUniProtKB:Q67890\tRO:0002436\tdrug_central\tinhibits\n"],
     none⟩ :=
  ⟨by decide,
   accession_split_two_genes "Homo sapiens" "99" "Foo" "BAR" "inhibits" (by decide)⟩

/-- Counterexample to C10 as stated, at two concrete rows.  First row:
organism matches, the ACCESSION field is present (empty), and DRUG_NAME,
GENE and ACT_COMMENT are all absent — the claim predicts an abort with a
key-lookup error, but the row is skipped with no error.  Second row:
organism matches, ACCESSION is present and non-empty, and the missing keys
include GENE — the claim predicts that the drug-node line has been written
before the abort, but the row aborts at the STRUCT_ID lookup with
`ItemInDictNotFound` and nothing written. -/
theorem missing_key_not_always_fatal :
    processRow "Homo sapiens" "drug_central"
      [("ORGANISM", "Homo sapiens"), ("ACCESSION", ""), ("STRUCT_ID", "1")] =
      ⟨[], [], none⟩ ∧
    processRow "Homo sapiens" "drug_central"
      [("ORGANISM", "Homo sapiens"), ("ACCESSION", "P1")] =
      ⟨[], [], some Err.itemInDictNotFound⟩ :=
  ⟨by decide, by decide⟩

/-- C10 as amended: for a row that passes the organism filter and whose
ACCESSION and STRUCT_ID fields are present and non-empty, a missing
DRUG_NAME, GENE or ACT_COMMENT key aborts the run with an uncaught
`KeyError` naming that key (the row is not skipped); when the missing key is
GENE the drug-node line has already been written before the abort, and when
it is ACT_COMMENT both the drug-node line and the first gene-node line have
already been written, so the failed run's output is not unchanged by the
failing row. -/
theorem missing_row_keys_abort (species source_name line : String)
    (header_items rest : List String) (items_dict : Row) (a struct_id g : String)
    (gs : List String)
    (hp : parse_drug_central_line line header_items = Except.ok items_dict)
    (horg : items_dict.lookup "ORGANISM" = some species)
    (hacc : items_dict.lookup "ACCESSION" = some a) (ha : a ≠ "")
    (hsplit : pySplit '|' a = g :: gs)
    (hsid : items_dict.lookup "STRUCT_ID" = some struct_id) (hs : struct_id ≠ "") :
    (items_dict.lookup "DRUG_NAME" = none →
      runLoop species source_name header_items (line :: rest) =
        ⟨[], [], some (Err.keyError "DRUG_NAME")⟩) ∧
    (∀ dn, items_dict.lookup "DRUG_NAME" = some dn →
      items_dict.lookup "GENE" = none →
      runLoop species source_name header_items (line :: rest) =
        ⟨["DrugCentral:" ++ struct_id ++ "\t" ++ dn ++ "\tbiolink:Drug\n"], [],
         some (Err.keyError "GENE")⟩) ∧
    (∀ dn gname, items_dict.lookup "DRUG_NAME" = some dn →
      items_dict.lookup "GENE" = some gname →
      items_dict.lookup "ACT_COMMENT" = none →
      runLoop species source_name header_items (line :: rest) =
        ⟨["DrugCentral:" ++ struct_id ++ "\t" ++ dn ++ "\tbiolink:Drug\n",
          "UniProtKB:" ++ g ++ "\t" ++ gname ++ "\tbiolink:Gene\n"], [],
         some (Err.keyError "ACT_COMMENT")⟩) := by
  refine ⟨?_, ?_, ?_⟩
  · intro hdn
    have hrow : processRow species source_name items_dict =
        ⟨[], [], some (Err.keyError "DRUG_NAME")⟩ := by
      unfold processRow
      rw [horg]
      simp [get_item_by_priority, hacc, ha, hsid, hs, dictGet, hdn]
    conv_lhs => unfold runLoop
    rw [hp]
    simp only [hrow]
  · intro dn hdn hg
    have hrow : processRow species source_name items_dict =
        ⟨["DrugCentral:" ++ struct_id ++ "\t" ++ dn ++ "\tbiolink:Drug\n"], [],
         some (Err.keyError "GENE")⟩ := by
      unfold processRow
      rw [horg]
      simp [get_item_by_priority, hacc, ha, hsid, hs, dictGet, hdn, hg, hsplit,
            emitGenes, write_node_edge_item, node_header, joinSep, drug_curie_pfx,
            drug_node_type, String.append_assoc]
    conv_lhs => unfold runLoop
    rw [hp]
    simp only [hrow]
  · intro dn gname hdn hg hcm
    have hrow : processRow species source_name items_dict =
        ⟨["DrugCentral:" ++ struct_id ++ "\t" ++ dn ++ "\tbiolink:Drug\n",
          "UniProtKB:" ++ g ++ "\t" ++ gname ++ "\tbiolink:Gene\n"], [],
         some (Err.keyError "ACT_COMMENT")⟩ := by
      unfold processRow
      rw [horg]
      simp [get_item_by_priority, hacc, ha, hsid, hs, dictGet, hdn, hg, hcm, hsplit,
            emitGenes, write_node_edge_item, node_header, joinSep, drug_curie_pfx,
            gene_curie_pfx, drug_node_type, gene_node_type, String.append_assoc]
    conv_lhs => unfold runLoop
    rw [hp]
    simp only [hrow]

/-- Witness for the amended C10: a concrete qualifying row lacking GENE
aborts with `KeyError GENE` after its drug-node line was written. -/
theorem missing_row_keys_abort_witness :
    parse_drug_central_line "Homo sapiens\tP1\t5\tFoo"
        ["ORGANISM", "ACCESSION", "STRUCT_ID", "DRUG_NAME"] =
      Except.ok [("ORGANISM", "Homo sapiens"), ("ACCESSION", "P1"),
                 ("STRUCT_ID", "5"), ("DRUG_NAME", "Foo")] ∧
    pySplit '|' "P1" = ["P1"] ∧
    runLoop "Homo sapiens" "drug_central"
        ["ORGANISM", "ACCESSION", "STRUCT_ID", "DRUG_NAME"]
        ["Homo sapiens\tP1\t5\tFoo"] =
      ⟨["DrugCentral:5\tFoo\tbiolink:Drug\n"], [], some (Err.keyError "GENE")⟩ :=
  ⟨by rfl, by decide,
   (missing_row_keys_abort "Homo sapiens" "drug_central" "Homo sapiens\tP1\t5\tFoo"
      ["ORGANISM", "ACCESSION", "STRUCT_ID", "DRUG_NAME"] []
      [("ORGANISM", "Homo sapiens"), ("ACCESSION", "P1"), ("STRUCT_ID", "5"),
       ("DRUG_NAME", "Foo")] "P1" "5" "P1" []
      (by rfl) (by decide) (by decide) (by decide) (by decide) (by decide)
      (by decide)).2.1 "Foo" (by decide) (by decide)⟩
